import Mathlib

/-!
Verification development for the `acr-push-tui` repository.

The Python sources are shallowly embedded in Lean:

* `services/docker.py` — each Docker CLI capability becomes a `DockerOp`
  value; a `DockerEnv` says which external invocations fail and what
  output lines they stream.  Each operation records the external
  invocations it performs and the observability-callback events it
  emits, and returns the raised error message (if any).
* `workflow.py` — `BuildPlan`, `validate_docker_paths` and
  `build_and_push` are translated directly; exceptions become
  `Option String` error results carrying the exception message.
* `settings.py` — `AppSettings.require_ci_fields`; `pathlib.Path`
  values are represented by their normalized textual form, so that the
  Python comparison `value == Path()` becomes comparison with `"."`.
* `services/azure.py` — the subset reached from CI mode, in particular
  `set_subscription`.
* `tui/app.py` — the version-suggestion engine (`_max_semver`,
  `_suggest_versions`, `_build_tag_options`).  Python strings are
  modelled as `List Char` so that `str.split`, `str.isdigit` (ASCII
  digits) and `int` parsing are fully executable and provable.
-/

namespace AcrPushTui

/-! ### Docker gateway (`services/docker.py`)

A `DockerOp` is one external invocation of the Docker CLI, carrying the
same arguments the Python functions pass to `run_command`. -/

inductive DockerOp where
  | ensureAvailable : DockerOp
  | buildImage (tag : String) (dockerfilePath : String) (contextPath : String)
      (platform : Option String) : DockerOp
  | tagImage (sourceTag : String) (targetTag : String) : DockerOp
  | pushImage (tag : String) : DockerOp
deriving DecidableEq

/-- The `DockerCliError` message each wrapper in `services/docker.py`
raises when its underlying command fails. -/
def dockerErrorMessage : DockerOp → String
  | DockerOp.ensureAvailable => "Docker daemon is not running."
  | DockerOp.buildImage _ _ _ _ => "Docker build failed."
  | DockerOp.tagImage _ _ => "Docker tag failed."
  | DockerOp.pushImage tag => "Failed to push image: " ++ tag

/-- Events delivered to the optional observability callbacks: one
`command` echo per invocation (`_emit_command`) and one `output` event
per streamed line (`run_command`'s `on_output`). -/
inductive CallbackEvent where
  | command (op : DockerOp)
  | output (line : String)
deriving DecidableEq

/-- The external world the Docker CLI wrappers run against: which
invocations exit non-zero, and the lines each invocation streams. -/
structure DockerEnv where
  fails : DockerOp → Bool
  outputLines : DockerOp → List String

/-- Callback events emitted while one Docker op runs: `_emit_command`
fires exactly when `on_command` is supplied, and every streamed line is
forwarded exactly when `on_output` is supplied. -/
def dockerOpEvents (env : DockerEnv) (onOutput : Bool) (onCommand : Bool)
    (op : DockerOp) : List CallbackEvent :=
  (if onCommand then [CallbackEvent.command op] else []) ++
    (if onOutput then (env.outputLines op).map CallbackEvent.output else [])

/-- Run a list of Docker ops in order, stopping at the first failure,
exactly as the `try` block of `build_and_push` does.  The result is
((external invocations performed, raised error message), callback
events). -/
def runSteps (env : DockerEnv) (onOutput : Bool) (onCommand : Bool) :
    List DockerOp → (List DockerOp × Option String) × List CallbackEvent
  | [] => (([], none), [])
  | op :: rest =>
    let events := dockerOpEvents env onOutput onCommand op
    if env.fails op then
      (([op], some (dockerErrorMessage op)), events)
    else
      let result := runSteps env onOutput onCommand rest
      ((op :: result.1.1, result.1.2), events ++ result.2)

/-! ### Build plan and workflow (`workflow.py`) -/

/-- `BuildPlan` from `workflow.py`; `pathlib.Path` fields are carried as
their textual form. -/
structure BuildPlan where
  registry_server : String
  repository : String
  tag : String
  dockerfile_path : String
  build_context : String
  skip_latest : Bool
  platform : Option String
deriving DecidableEq

/-- `BuildPlan.versioned_ref`: the f-string
`f"{self.registry_server}/{self.repository}:{self.tag}"`. -/
def BuildPlan.versioned_ref (plan : BuildPlan) : String :=
  plan.registry_server ++ "/" ++ plan.repository ++ ":" ++ plan.tag

/-- `BuildPlan.latest_ref`: the f-string
`f"{self.registry_server}/{self.repository}:latest"`. -/
def BuildPlan.latest_ref (plan : BuildPlan) : String :=
  plan.registry_server ++ "/" ++ plan.repository ++ ":latest"

/-- The ordered Docker invocations attempted by `build_and_push`
(workflow.py lines 60-78): engine check, build, conditional tag of
`latest`, push of the versioned ref, conditional push of `latest`. -/
def buildAndPushSteps (plan : BuildPlan) : List DockerOp :=
  [DockerOp.ensureAvailable,
   DockerOp.buildImage plan.versioned_ref plan.dockerfile_path plan.build_context
     plan.platform] ++
  (if plan.skip_latest then []
   else [DockerOp.tagImage plan.versioned_ref plan.latest_ref]) ++
  [DockerOp.pushImage plan.versioned_ref] ++
  (if plan.skip_latest then []
   else [DockerOp.pushImage plan.latest_ref])

/-- `build_and_push` from `workflow.py`: runs the step sequence,
short-circuiting at the first `DockerCliError`, which is re-raised as a
`WorkflowError` with the same message (`str(exc)`). -/
def build_and_push (env : DockerEnv) (onOutput : Bool) (onCommand : Bool)
    (plan : BuildPlan) : (List DockerOp × Option String) × List CallbackEvent :=
  runSteps env onOutput onCommand (buildAndPushSteps plan)

/-- Unfolding equation for `runSteps` on a non-empty step list. -/
theorem runSteps_cons (env : DockerEnv) (wo wc : Bool) (op : DockerOp)
    (rest : List DockerOp) :
    runSteps env wo wc (op :: rest) =
      if env.fails op then
        (([op], some (dockerErrorMessage op)), dockerOpEvents env wo wc op)
      else
        ((op :: (runSteps env wo wc rest).1.1, (runSteps env wo wc rest).1.2),
          dockerOpEvents env wo wc op ++ (runSteps env wo wc rest).2) := by
  simp [runSteps]

/-- The invocation trace and error result of `runSteps` never depend on
which observability callbacks are supplied. -/
theorem runSteps_fst_eq (env : DockerEnv) (wo wc wo' wc' : Bool)
    (ops : List DockerOp) :
    (runSteps env wo wc ops).1 = (runSteps env wo' wc' ops).1 := by
  induction ops with
  | nil => rfl
  | cons op rest ih =>
    rw [runSteps_cons, runSteps_cons]
    by_cases hop : env.fails op
    · simp [hop]
    · simp [hop, ih]

/-- When no step fails, `runSteps` performs every step in order and
returns no error. -/
theorem runSteps_success (env : DockerEnv) (wo wc : Bool) (ops : List DockerOp)
    (h : ∀ op ∈ ops, env.fails op = false) :
    (runSteps env wo wc ops).1 = (ops, none) := by
  induction ops with
  | nil => rfl
  | cons op rest ih =>
    have hop : env.fails op = false := h op (by simp)
    rw [runSteps_cons]
    simp [hop, ih fun o ho => h o (by simp [ho])]

/-- When `runSteps` returns an error, the invocation trace is an initial
segment of the step list ending at the failing step, every earlier step
succeeded, and the error message is the failing step's message. -/
theorem runSteps_failure (env : DockerEnv) (wo wc : Bool) (ops : List DockerOp) :
    ∀ trace msg, (runSteps env wo wc ops).1 = (trace, some msg) →
      ∃ pre failing, trace = pre ++ [failing] ∧ env.fails failing = true ∧
        msg = dockerErrorMessage failing ∧ (∀ op ∈ pre, env.fails op = false) ∧
        trace = ops.take trace.length := by
  induction ops with
  | nil =>
    intro trace msg h
    simp [runSteps] at h
  | cons op rest ih =>
    intro trace msg h
    rw [runSteps_cons] at h
    by_cases hop : env.fails op
    · rw [if_pos hop] at h
      obtain ⟨h1, h2⟩ := Prod.mk.injEq .. ▸ h
      refine ⟨[], op, ?_, hop, ?_, by simp, ?_⟩
      · simp [← h1]
      · exact (Option.some.injEq .. ▸ h2.symm)
      · simp [← h1]
    · rw [if_neg hop] at h
      obtain ⟨h1, h2⟩ := Prod.mk.injEq .. ▸ h
      obtain ⟨pre, failing, htr, hfail, hmsg, hpre, htake⟩ :=
        ih (runSteps env wo wc rest).1.1 msg (by rw [← h2])
      refine ⟨op :: pre, failing, ?_, hfail, hmsg, ?_, ?_⟩
      · simp [← h1, htr]
      · intro o ho
        rcases List.mem_cons.mp ho with rfl | ho'
        · exact Bool.not_eq_true _ ▸ hop
        · exact hpre o ho'
      · rw [← h1]
        simp [List.length_cons, List.take_succ_cons, ← htake]

/-- A Docker environment in which every invocation succeeds. -/
def allOkEnv : DockerEnv := ⟨fun _ => false, fun _ => []⟩

/-- A concrete fully-resolved plan used to instantiate theorems. -/
def samplePlan : BuildPlan :=
  ⟨"reg.example.com", "myrepo", "1.0.0", "Dockerfile", ".", false, none⟩

/-- C1: for every `BuildPlan`, `build_and_push` invokes the gateway
operations strictly in this order: ensure-build-engine-available, then
build-image with the plan's versioned reference, Dockerfile path,
context path and platform; then, only when `skip_latest` is false,
tag-image from the versioned reference to the latest reference; then
push-image of the versioned reference; then, only when `skip_latest` is
false, push-image of the latest reference; no other gateway operation
is invoked. -/
theorem build_and_push_invocation_order (env : DockerEnv) (wo wc : Bool)
    (plan : BuildPlan) (hok : ∀ op, env.fails op = false) :
    (build_and_push env wo wc plan).1 =
      ((if plan.skip_latest then
          [DockerOp.ensureAvailable,
           DockerOp.buildImage plan.versioned_ref plan.dockerfile_path
             plan.build_context plan.platform,
           DockerOp.pushImage plan.versioned_ref]
        else
          [DockerOp.ensureAvailable,
           DockerOp.buildImage plan.versioned_ref plan.dockerfile_path
             plan.build_context plan.platform,
           DockerOp.tagImage plan.versioned_ref plan.latest_ref,
           DockerOp.pushImage plan.versioned_ref,
           DockerOp.pushImage plan.latest_ref]), none) := by
  have h := runSteps_success env wo wc (buildAndPushSteps plan) (fun op _ => hok op)
  rw [build_and_push, h, buildAndPushSteps]
  cases plan.skip_latest <;> simp

/-- Witness for C1 at a concrete all-success environment and plan. -/
theorem build_and_push_invocation_order_witness :
    (build_and_push allOkEnv false false samplePlan).1 =
      ([DockerOp.ensureAvailable,
        DockerOp.buildImage "reg.example.com/myrepo:1.0.0" "Dockerfile" "." none,
        DockerOp.tagImage "reg.example.com/myrepo:1.0.0"
          "reg.example.com/myrepo:latest",
        DockerOp.pushImage "reg.example.com/myrepo:1.0.0",
        DockerOp.pushImage "reg.example.com/myrepo:latest"], none) :=
  (build_and_push_invocation_order allOkEnv false false samplePlan
    (fun _ => rfl)).trans (by decide)

/-- C2: if any step of `build_and_push` raises a gateway failure, no
later step of the sequence is invoked and the raised `WorkflowError`
message equals the message of the underlying failure; in particular,
when the build step fails, neither tag-image nor any push-image is
attempted. -/
theorem build_and_push_short_circuit (env : DockerEnv) (wo wc : Bool)
    (plan : BuildPlan) :
    (∀ trace msg, (build_and_push env wo wc plan).1 = (trace, some msg) →
      ∃ pre failing, trace = pre ++ [failing] ∧ env.fails failing = true ∧
        msg = dockerErrorMessage failing ∧ (∀ op ∈ pre, env.fails op = false) ∧
        trace = (buildAndPushSteps plan).take trace.length) ∧
    (env.fails DockerOp.ensureAvailable = false →
      env.fails (DockerOp.buildImage plan.versioned_ref plan.dockerfile_path
        plan.build_context plan.platform) = true →
      (build_and_push env wo wc plan).1 =
        ([DockerOp.ensureAvailable,
          DockerOp.buildImage plan.versioned_ref plan.dockerfile_path
            plan.build_context plan.platform],
         some "Docker build failed.")) := by
  constructor
  · exact runSteps_failure env wo wc (buildAndPushSteps plan)
  · intro h1 h2
    rw [build_and_push, buildAndPushSteps]
    simp only [List.cons_append, List.nil_append, runSteps_cons, h1, h2]
    simp [dockerErrorMessage]

/-- A Docker environment in which exactly the build step fails. -/
def buildFailsEnv : DockerEnv :=
  ⟨fun op => match op with
    | DockerOp.buildImage _ _ _ _ => true
    | _ => false, fun _ => []⟩

/-- Witness for C2: with a failing build, the trace stops after the
build invocation and the error carries the build failure message. -/
theorem build_and_push_short_circuit_witness :
    ((build_and_push buildFailsEnv false false samplePlan).1 =
      ([DockerOp.ensureAvailable,
        DockerOp.buildImage "reg.example.com/myrepo:1.0.0" "Dockerfile" "." none],
       some "Docker build failed.")) ∧
    (∃ pre failing,
      [DockerOp.ensureAvailable,
       DockerOp.buildImage "reg.example.com/myrepo:1.0.0" "Dockerfile" "." none] =
        pre ++ [failing] ∧ buildFailsEnv.fails failing = true ∧
      "Docker build failed." = dockerErrorMessage failing ∧
      (∀ op ∈ pre, buildFailsEnv.fails op = false) ∧
      [DockerOp.ensureAvailable,
       DockerOp.buildImage "reg.example.com/myrepo:1.0.0" "Dockerfile" "." none] =
        (buildAndPushSteps samplePlan).take 2) := by
  have hmain := build_and_push_short_circuit buildFailsEnv false false samplePlan
  have hbuild := hmain.2 rfl rfl
  have heq : (build_and_push buildFailsEnv false false samplePlan).1 =
      ([DockerOp.ensureAvailable,
        DockerOp.buildImage "reg.example.com/myrepo:1.0.0" "Dockerfile" "." none],
       some "Docker build failed.") := hbuild.trans (by decide)
  refine ⟨heq, ?_⟩
  have h := hmain.1 _ _ heq
  simpa using h

/-- C7: the derived versioned reference is
`registry_server/repository:tag` and the derived latest reference is
`registry_server/repository:latest`, with the concrete instance from
the spec. -/
theorem buildPlan_derived_refs :
    (∀ plan : BuildPlan,
      plan.versioned_ref =
        plan.registry_server ++ "/" ++ plan.repository ++ ":" ++ plan.tag ∧
      plan.latest_ref = plan.registry_server ++ "/" ++ plan.repository ++ ":latest") ∧
    (BuildPlan.mk "reg.example.com" "myrepo" "1.0.0" "Dockerfile" "." false
        none).versioned_ref = "reg.example.com/myrepo:1.0.0" ∧
    (BuildPlan.mk "reg.example.com" "myrepo" "1.0.0" "Dockerfile" "." false
        none).latest_ref = "reg.example.com/myrepo:latest" :=
  ⟨fun _ => ⟨rfl, rfl⟩, by decide, by decide⟩

/-- C8: supplying or omitting the optional `on_output` / `on_command`
callbacks never changes the performed external invocations, nor whether
`build_and_push` succeeds, nor the raised error message. -/
theorem build_and_push_callbacks_observability_only (env : DockerEnv)
    (plan : BuildPlan) (wo wc wo' wc' : Bool) :
    (build_and_push env wo wc plan).1 = (build_and_push env wo' wc' plan).1 :=
  runSteps_fst_eq env wo wc wo' wc' (buildAndPushSteps plan)

/-! ### Filesystem model and `validate_docker_paths` (`workflow.py`) -/

/-- Abstract filesystem: which paths are existing regular files and
which are existing directories (`Path.is_file` / `Path.is_dir`). -/
structure FileSystem where
  isFile : String → Bool
  isDir : String → Bool

/-- `validate_docker_paths` from `workflow.py`: raises (returns) a
`WorkflowError` message, checking the Dockerfile first. -/
def validate_docker_paths (fs : FileSystem) (dockerfilePath buildContext : String) :
    Option String :=
  if !fs.isFile dockerfilePath then
    some ("Dockerfile not found: " ++ dockerfilePath)
  else if !fs.isDir buildContext then
    some ("Build context not found: " ++ buildContext)
  else none

/-- C5: `validate_docker_paths` fails with the Dockerfile-not-found
message whenever the Dockerfile path is not an existing regular file
(even if the context is an existing directory); otherwise it fails with
the context-not-found message whenever the context is not an existing
directory; and it succeeds exactly when the Dockerfile is a regular
file and the context a directory — the Dockerfile check deciding
first. -/
theorem validate_docker_paths_checks (fs : FileSystem) (d c : String) :
    (fs.isFile d = false →
      validate_docker_paths fs d c = some ("Dockerfile not found: " ++ d)) ∧
    (fs.isFile d = true → fs.isDir c = false →
      validate_docker_paths fs d c = some ("Build context not found: " ++ c)) ∧
    (validate_docker_paths fs d c = none ↔
      (fs.isFile d = true ∧ fs.isDir c = true)) := by
  refine ⟨?_, ?_, ?_⟩
  · intro h; simp [validate_docker_paths, h]
  · intro h1 h2; simp [validate_docker_paths, h1, h2]
  · constructor
    · intro h
      by_cases h1 : fs.isFile d
      · by_cases h2 : fs.isDir c
        · exact ⟨h1, h2⟩
        · simp [validate_docker_paths, h1, h2] at h
      · simp [validate_docker_paths, h1] at h
    · intro ⟨h1, h2⟩; simp [validate_docker_paths, h1, h2]

/-- A filesystem with a missing Dockerfile but an existing directory. -/
def noFileFs : FileSystem := ⟨fun _ => false, fun _ => true⟩

/-- A filesystem on which both path checks succeed. -/
def allOkFs : FileSystem := ⟨fun _ => true, fun _ => true⟩

/-- Witness for C5: concrete missing-Dockerfile failure and concrete
success. -/
theorem validate_docker_paths_checks_witness :
    validate_docker_paths noFileFs "Dockerfile" "." =
      some "Dockerfile not found: Dockerfile" ∧
    validate_docker_paths allOkFs "Dockerfile" "." = none :=
  ⟨((validate_docker_paths_checks noFileFs "Dockerfile" ".").1 rfl).trans (by decide),
   (validate_docker_paths_checks allOkFs "Dockerfile" ".").2.2.mpr ⟨rfl, rfl⟩⟩

/-! ### Application settings (`settings.py`)

`pathlib.Path` fields are represented by the normalized textual form of
the path, so the Python comparison `value == Path()` (which holds
exactly for the bare current-directory path) becomes comparison with
`"."`. -/

/-- `AppSettings` from `settings.py`. -/
structure AppSettings where
  acr_name : Option String
  acr_resource_group : Option String
  subscription : Option String
  tenant_id : Option String
  repo_name : Option String
  tag : Option String
  dockerfile_path : Option String
  build_context : Option String
  skip_latest : Bool
  platform : Option String
  log_level : String
deriving DecidableEq

/-- Membership of a string-typed field in `(None, "", Path())`: a string
can only equal `None` or `""`. -/
def strFieldMissing : Option String → Bool
  | none => true
  | some s => s == ""

/-- Membership of a `Path`-typed field in `(None, "", Path())`: a path
can only equal `None` or `Path()`, i.e. the bare `"."`. -/
def pathFieldMissing : Option String → Bool
  | none => true
  | some p => p == "."

/-- The tuple of required CI field names in `require_ci_fields`. -/
def ciRequiredFieldNames : List String :=
  ["acr_name", "acr_resource_group", "repo_name", "tag", "dockerfile_path",
   "build_context"]

/-- `getattr(self, name) in (None, "", Path())` for each required
field. -/
def ciFieldValueMissing (s : AppSettings) : String → Bool
  | "acr_name" => strFieldMissing s.acr_name
  | "acr_resource_group" => strFieldMissing s.acr_resource_group
  | "repo_name" => strFieldMissing s.repo_name
  | "tag" => strFieldMissing s.tag
  | "dockerfile_path" => pathFieldMissing s.dockerfile_path
  | "build_context" => pathFieldMissing s.build_context
  | _ => false

/-- The list comprehension in `require_ci_fields`: required field names
whose value is missing, in declaration order. -/
def ciMissingFields (s : AppSettings) : List String :=
  ciRequiredFieldNames.filter (ciFieldValueMissing s)

/-- `AppSettings.require_ci_fields`: raises (returns) the aggregated
`ValueError` message when any required field is missing. -/
def require_ci_fields (s : AppSettings) : Option String :=
  if (ciMissingFields s).isEmpty then none
  else some ("Missing required settings for CI: " ++
    String.intercalate ", " (ciMissingFields s))

/-! ### Azure gateway (`services/azure.py`), CI-mode subset -/

/-- One external invocation of the Azure CLI, with the arguments the
Python wrappers pass to `run_command`. -/
inductive AzureOp where
  | accountShow : AzureOp
  | accountSet (subscription : String) : AzureOp
  | acrShow (name : String) (resourceGroup : String) : AzureOp
  | acrLogin (name : String) : AzureOp
deriving DecidableEq

/-- `AcrRegistry` from `services/azure.py`. -/
structure AcrRegistry where
  name : String
  resource_group : String
  login_server : String
deriving DecidableEq

/-- The external world of the Azure CLI wrappers: which invocations
fail, their streamed output, and the registry metadata a successful
`az acr show` parses to. -/
structure AzureEnv where
  fails : AzureOp → Bool
  outputLines : AzureOp → List String
  registryFor : String → String → AcrRegistry

/-- Events delivered to the Azure wrappers' observability callbacks. -/
inductive AzureCallbackEvent where
  | command (op : AzureOp)
  | output (line : String)
deriving DecidableEq

/-- Callback events emitted while one Azure op runs (`_emit_command`
plus streamed lines). -/
def azureOpEvents (env : AzureEnv) (onOutput onCommand : Bool) (op : AzureOp) :
    List AzureCallbackEvent :=
  (if onCommand then [AzureCallbackEvent.command op] else []) ++
    (if onOutput then (env.outputLines op).map AzureCallbackEvent.output else [])

/-- `ensure_logged_in` from `services/azure.py`. -/
def ensure_logged_in (env : AzureEnv) (onOutput onCommand : Bool) :
    (List AzureOp × Option String) × List AzureCallbackEvent :=
  let op := AzureOp.accountShow
  if env.fails op then
    (([op], some "Azure CLI is not logged in."),
      azureOpEvents env onOutput onCommand op)
  else (([op], none), azureOpEvents env onOutput onCommand op)

/-- `set_subscription` from `services/azure.py`: `if not subscription:
return` makes it a no-op for `None` and for the empty string; only a
truthy id leads to `_emit_command` and `run_command`. -/
def set_subscription (env : AzureEnv) (onOutput onCommand : Bool)
    (subscription : Option String) :
    (List AzureOp × Option String) × List AzureCallbackEvent :=
  match subscription with
  | none => (([], none), [])
  | some s =>
    if s = "" then (([], none), [])
    else
      let op := AzureOp.accountSet s
      if env.fails op then
        (([op], some ("Failed to set subscription: " ++ s)),
          azureOpEvents env onOutput onCommand op)
      else (([op], none), azureOpEvents env onOutput onCommand op)

/-- `show_registry` from `services/azure.py`, in the regime where a
successful invocation parses to a registry (the TSV-shape failure
branch is not reachable in this model's environments). -/
def show_registry (env : AzureEnv) (onOutput onCommand : Bool)
    (acrName resourceGroup : String) :
    (List AzureOp × Except String AcrRegistry) × List AzureCallbackEvent :=
  let op := AzureOp.acrShow acrName resourceGroup
  if env.fails op then
    (([op], Except.error ("Registry not found: " ++ acrName)),
      azureOpEvents env onOutput onCommand op)
  else
    (([op], Except.ok (env.registryFor acrName resourceGroup)),
      azureOpEvents env onOutput onCommand op)

/-- `login_registry` from `services/azure.py`. -/
def login_registry (env : AzureEnv) (onOutput onCommand : Bool)
    (acrName : String) :
    (List AzureOp × Option String) × List AzureCallbackEvent :=
  let op := AzureOp.acrLogin acrName
  if env.fails op then
    (([op], some ("Failed to login to registry: " ++ acrName)),
      azureOpEvents env onOutput onCommand op)
  else (([op], none), azureOpEvents env onOutput onCommand op)

/-- C9: `set_subscription` with an empty or absent id performs no
external invocation and emits no callback event, returning
successfully; for a non-empty id it invokes `az account set` and fails
with the typed message exactly when that invocation fails. -/
theorem set_subscription_noop_on_empty (env : AzureEnv) (wo wc : Bool)
    (subscription : Option String) :
    ((subscription = none ∨ subscription = some "") →
      set_subscription env wo wc subscription = (([], none), [])) ∧
    (∀ s, subscription = some s → s ≠ "" →
      (set_subscription env wo wc subscription).1.1 = [AzureOp.accountSet s] ∧
      (set_subscription env wo wc subscription).1.2 =
        (if env.fails (AzureOp.accountSet s) then
          some ("Failed to set subscription: " ++ s) else none)) := by
  constructor
  · rintro (rfl | rfl) <;> simp [set_subscription]
  · rintro s rfl hs
    simp only [set_subscription, if_neg hs]
    by_cases hf : env.fails (AzureOp.accountSet s) <;> simp [hf]

/-- An Azure environment in which every invocation succeeds. -/
def allOkAzureEnv : AzureEnv :=
  ⟨fun _ => false, fun _ => [], fun n rg => ⟨n, rg, n ++ ".azurecr.io"⟩⟩

/-- Witness for C9: concrete no-op for an absent id and concrete
invocation for a non-empty id. -/
theorem set_subscription_noop_on_empty_witness :
    set_subscription allOkAzureEnv false false none = (([], none), []) ∧
    (set_subscription allOkAzureEnv false false (some "my-sub")).1.1 =
      [AzureOp.accountSet "my-sub"] :=
  ⟨(set_subscription_noop_on_empty allOkAzureEnv false false none).1 (Or.inl rfl),
   ((set_subscription_noop_on_empty allOkAzureEnv false false
      (some "my-sub")).2 "my-sub" rfl (by decide)).1⟩

/-! ### CI mode (`cli.py`, `_run_ci`) -/

/-- One gateway invocation observed during a CI run. -/
inductive CiEvent where
  | azure (op : AzureOp)
  | docker (op : DockerOp)
deriving DecidableEq

/-- `settings.dockerfile_path or Path()` — a `Path` object is always
truthy, so only `None` falls back to the bare path `"."`. -/
def pathOrDefault : Option String → String
  | none => "."
  | some p => p

/-- `value or ""` for optional strings. -/
def strOrEmpty : Option String → String
  | none => ""
  | some s => s

/-- `_run_ci` from `cli.py`: required-field check, then the strictly
sequential gateway pipeline.  The result is the gateway invocations
performed and the fatal failure message, if any.  Callbacks are not
passed in CI mode. -/
def run_ci (az : AzureEnv) (denv : DockerEnv) (fs : FileSystem)
    (s : AppSettings) : List CiEvent × Option String :=
  match require_ci_fields s with
  | some msg => ([], some msg)
  | none =>
    let login := ensure_logged_in az false false
    let t1 := login.1.1.map CiEvent.azure
    match login.1.2 with
    | some msg => (t1, some msg)
    | none =>
      let subStep := set_subscription az false false s.subscription
      let t2 := t1 ++ subStep.1.1.map CiEvent.azure
      match subStep.1.2 with
      | some msg => (t2, some msg)
      | none =>
        let showStep := show_registry az false false (strOrEmpty s.acr_name)
          (strOrEmpty s.acr_resource_group)
        let t3 := t2 ++ showStep.1.1.map CiEvent.azure
        match showStep.1.2 with
        | Except.error msg => (t3, some msg)
        | Except.ok registry =>
          let loginReg := login_registry az false false registry.name
          let t4 := t3 ++ loginReg.1.1.map CiEvent.azure
          match loginReg.1.2 with
          | some msg => (t4, some msg)
          | none =>
            let dockerfilePath := pathOrDefault s.dockerfile_path
            let buildContext := pathOrDefault s.build_context
            match validate_docker_paths fs dockerfilePath buildContext with
            | some msg => (t4, some msg)
            | none =>
              let plan : BuildPlan :=
                ⟨registry.login_server, strOrEmpty s.repo_name,
                 strOrEmpty s.tag, dockerfilePath, buildContext,
                 s.skip_latest, s.platform⟩
              let result := build_and_push denv false false plan
              (t4 ++ result.1.1.map CiEvent.docker, result.1.2)

/-- A settings record with every optional field absent. -/
def emptyCiSettings : AppSettings :=
  ⟨none, none, none, none, none, none, none, none, false, none, "INFO"⟩

/-- C6: in CI mode, if one or more of the six required fields are
missing, a single aggregated fatal error is raised before any gateway
call, its message listing the names of every missing field; with all
six fields empty the message lists all six field names. -/
theorem ci_missing_fields_aggregated (az : AzureEnv) (denv : DockerEnv)
    (fs : FileSystem) (s : AppSettings) :
    (ciMissingFields s ≠ [] →
      run_ci az denv fs s =
        ([], some ("Missing required settings for CI: " ++
          String.intercalate ", " (ciMissingFields s)))) ∧
    run_ci az denv fs emptyCiSettings =
      ([], some
        "Missing required settings for CI: acr_name, acr_resource_group, repo_name, tag, dockerfile_path, build_context") := by
  constructor
  · intro h
    have hreq : require_ci_fields s =
        some ("Missing required settings for CI: " ++
          String.intercalate ", " (ciMissingFields s)) := by
      rw [require_ci_fields, if_neg (by simpa [List.isEmpty_iff] using h)]
    rw [run_ci, hreq]
  · have hreq : require_ci_fields emptyCiSettings =
        some
          "Missing required settings for CI: acr_name, acr_resource_group, repo_name, tag, dockerfile_path, build_context" := by
      decide
    rw [run_ci, hreq]

/-- Witness for C6: with only the tag missing, the aggregated error
names exactly that field and no gateway call happens. -/
theorem ci_missing_fields_aggregated_witness :
    run_ci allOkAzureEnv allOkEnv allOkFs
      ⟨some "acr", some "rg", none, none, some "repo", none,
       some "Dockerfile", some "ctx", false, none, "INFO"⟩ =
      ([], some "Missing required settings for CI: tag") :=
  ((ci_missing_fields_aggregated allOkAzureEnv allOkEnv allOkFs
    ⟨some "acr", some "rg", none, none, some "repo", none,
     some "Dockerfile", some "ctx", false, none, "INFO"⟩).1
      (by decide)).trans (by decide)

/-- C10: a path field holding the bare path `"."` (Python's `Path()`)
is treated as missing by the CI required-field check, even though `"."`
denotes the current directory. -/
theorem ci_dot_path_counts_as_missing (s : AppSettings) :
    (s.dockerfile_path = some "." →
      "dockerfile_path" ∈ ciMissingFields s ∧
      ∃ msg, require_ci_fields s = some msg) ∧
    (s.build_context = some "." →
      "build_context" ∈ ciMissingFields s ∧
      ∃ msg, require_ci_fields s = some msg) := by
  have hmem : ∀ name, ciFieldValueMissing s name = true →
      name ∈ ciRequiredFieldNames → name ∈ ciMissingFields s := by
    intro name hval hname
    exact List.mem_filter.mpr ⟨hname, hval⟩
  have hsome : ∀ name, name ∈ ciMissingFields s →
      ∃ msg, require_ci_fields s = some msg := by
    intro name hn
    rw [require_ci_fields]
    have : (ciMissingFields s).isEmpty = false := by
      cases hmf : ciMissingFields s with
      | nil => rw [hmf] at hn; simp at hn
      | cons a l => simp [hmf]
    simp [this]
  constructor
  · intro h
    have hval : ciFieldValueMissing s "dockerfile_path" = true := by
      simp [ciFieldValueMissing, pathFieldMissing, h]
    have hm := hmem "dockerfile_path" hval (by decide)
    exact ⟨hm, hsome "dockerfile_path" hm⟩
  · intro h
    have hval : ciFieldValueMissing s "build_context" = true := by
      simp [ciFieldValueMissing, pathFieldMissing, h]
    have hm := hmem "build_context" hval (by decide)
    exact ⟨hm, hsome "build_context" hm⟩

/-- Witness for C10: a fully populated settings record whose build
context is the bare `"."` is still reported as missing that field. -/
theorem ci_dot_path_counts_as_missing_witness :
    "build_context" ∈ ciMissingFields
      ⟨some "acr", some "rg", none, none, some "repo", some "1.0.0",
       some "Dockerfile", some ".", false, none, "INFO"⟩ ∧
    ∃ msg, require_ci_fields
      ⟨some "acr", some "rg", none, none, some "repo", some "1.0.0",
       some "Dockerfile", some ".", false, none, "INFO"⟩ = some msg :=
  (ci_dot_path_counts_as_missing
    ⟨some "acr", some "rg", none, none, some "repo", some "1.0.0",
     some "Dockerfile", some ".", false, none, "INFO"⟩).2 rfl

/-! ### Version suggestion engine (`tui/app.py`)

Python strings are modelled as lists of characters (so `str.split`,
`str.isdigit` and `int` are fully executable); `str.isdigit` is
modelled on the ASCII range. -/

/-- The Python-string model. -/
abbrev PyStr := List Char

/-- View a Lean string literal as a Python string. -/
def pstr (s : String) : PyStr := s.data

/-- Python `tag.split(".")`: splits at every dot and keeps empty
pieces, e.g. `"".split(".") == [""]` and `"a..b".split(".") ==
["a", "", "b"]`. -/
def splitDot : PyStr → List PyStr
  | [] => [[]]
  | c :: rest =>
    if c = '.' then [] :: splitDot rest
    else (c :: (splitDot rest).headI) :: (splitDot rest).tail

/-- Python `part.isdigit()` (ASCII): non-empty and all decimal
digits. -/
def pyIsDigit (s : PyStr) : Bool := !s.isEmpty && s.all Char.isDigit

/-- Python `int(part)` on a decimal-digit string. -/
def pyInt (s : PyStr) : Nat := s.foldl (fun n c => 10 * n + (c.toNat - 48)) 0

/-- The per-tag step of `_max_semver`'s loop: a tag yields a triple
exactly when it splits into exactly three all-digit pieces
(`len(parts) != 3 or not all(part.isdigit() ...)` skips it). -/
def parseTag (tag : PyStr) : Option (Nat × Nat × Nat) :=
  match splitDot tag with
  | [a, b, c] =>
    if pyIsDigit a && pyIsDigit b && pyIsDigit c then
      some (pyInt a, pyInt b, pyInt c)
    else none
  | _ => none

/-- Python tuple comparison `version > max_version` on
(major, minor, patch) triples: lexicographic, numeric. -/
def verGt (v w : Nat × Nat × Nat) : Bool :=
  decide (w.1 < v.1 ∨ (w.1 = v.1 ∧
    (w.2.1 < v.2.1 ∨ (w.2.1 = v.2.1 ∧ w.2.2 < v.2.2))))

/-- The `for tag in tags` loop of `_max_semver`, tracking the running
maximum triple. -/
def maxSemverLoop : List PyStr → Option (Nat × Nat × Nat) → Option (Nat × Nat × Nat)
  | [], acc => acc
  | tag :: rest, acc =>
    match parseTag tag with
    | none => maxSemverLoop rest acc
    | some v =>
      match acc with
      | none => maxSemverLoop rest (some v)
      | some m => maxSemverLoop rest (if verGt v m then some v else some m)

/-- The numeric value `_max_semver` computes before formatting. -/
def maxSemverTriple (tags : List PyStr) : Option (Nat × Nat × Nat) :=
  maxSemverLoop tags none

/-- The ASCII character of one decimal digit. -/
def digitChar (d : Nat) : Char := Char.ofNat (48 + d)

/-- Fuel-driven decimal rendering (most significant digit first). -/
def natDigitsF : Nat → Nat → List Char
  | 0, _ => []
  | fuel + 1, n =>
    if n < 10 then [digitChar n]
    else natDigitsF fuel (n / 10) ++ [digitChar (n % 10)]

/-- Decimal rendering of a natural number — Python's f-string `{n}`.
The fuel `n + 1` always suffices since the argument shrinks to `n / 10`
at each step. -/
def natDigits (n : Nat) : List Char := natDigitsF (n + 1) n

/-- The f-string `f"{major}.{minor}.{patch}"`. -/
def formatTriple (v : Nat × Nat × Nat) : PyStr :=
  natDigits v.1 ++ '.' :: (natDigits v.2.1 ++ '.' :: natDigits v.2.2)

/-- `_max_semver` from `tui/app.py`: the formatted greatest semantic
version among the tags, or none when no tag parses. -/
def max_semver (tags : List PyStr) : Option PyStr :=
  (maxSemverTriple tags).map formatTriple

/-- `_suggest_versions` from `tui/app.py`: re-parses the base string
and renders the patch, minor and major bumps.  It is only ever applied
to output of `_max_semver`, which always has the three-piece all-digit
shape; other shapes (on which Python would raise) fall to `[]`. -/
def suggest_versions (base : PyStr) : List PyStr :=
  match splitDot base with
  | [a, b, c] =>
    [formatTriple (pyInt a, pyInt b, pyInt c + 1),
     formatTriple (pyInt a, pyInt b + 1, 0),
     formatTriple (pyInt a + 1, 0, 0)]
  | _ => []

/-- `_build_tag_options` from `tui/app.py`.  `_max_semver` never
returns an empty string, so its truthiness test is exactly the `some`
test. -/
def build_tag_options (tags : List PyStr) : List PyStr :=
  (match max_semver tags with
   | some latest => suggest_versions latest
   | none => [pstr "0.0.1", pstr "0.1.0", pstr "1.0.0"]) ++ [pstr "Custom tag"]

example : splitDot (pstr "1.2.10") = [pstr "1", pstr "2", pstr "10"] := by decide
example : parseTag (pstr "1.2.10") = some (1, 2, 10) := by decide
example : parseTag (pstr "1.2.3.4") = none := by decide
example : parseTag (pstr "bogus") = none := by decide
example : natDigits 210 = pstr "210" := by decide
example : maxSemverTriple [pstr "1.2.3", pstr "1.2.10", pstr "bogus", pstr "1.2.3.4"] =
    some (1, 2, 10) := by decide
example : build_tag_options [pstr "1.2.3", pstr "1.2.10", pstr "bogus", pstr "1.2.3.4"] =
    [pstr "1.2.11", pstr "1.3.0", pstr "2.0.0", pstr "Custom tag"] := by decide
example : build_tag_options [pstr "weird"] =
    [pstr "0.0.1", pstr "0.1.0", pstr "1.0.0", pstr "Custom tag"] := by decide

/-- `natDigitsF` is fuel-independent once the fuel exceeds the
number. -/
theorem natDigitsF_fuel_eq : ∀ fuel fuel' n, n < fuel → n < fuel' →
    natDigitsF fuel n = natDigitsF fuel' n := by
  intro fuel
  induction fuel with
  | zero => intro fuel' n h _; omega
  | succ f ih =>
    intro fuel' n h h'
    cases fuel' with
    | zero => omega
    | succ f' =>
      by_cases h10 : n < 10
      · simp [natDigitsF, h10]
      · have hd : n / 10 < n := Nat.div_lt_self (by omega) (by omega)
        simp only [natDigitsF, if_neg h10]
        rw [ih f' (n / 10) (by omega) (by omega)]

/-- Recursive unfolding of `natDigits`. -/
theorem natDigits_eq (n : Nat) :
    natDigits n = if n < 10 then [digitChar n]
      else natDigits (n / 10) ++ [digitChar (n % 10)] := by
  by_cases h10 : n < 10
  · simp [natDigits, natDigitsF, h10]
  · have hd : n / 10 < n := Nat.div_lt_self (by omega) (by omega)
    rw [if_neg h10]
    show natDigitsF (n + 1) n = _
    simp only [natDigitsF, if_neg h10]
    rw [natDigitsF_fuel_eq n (n / 10 + 1) (n / 10) (by omega) (by omega)]
    rfl

theorem digitChar_isDigit (d : Nat) (h : d < 10) : (digitChar d).isDigit = true := by
  interval_cases d <;> decide

theorem digitChar_toNat (d : Nat) (h : d < 10) : (digitChar d).toNat = 48 + d := by
  interval_cases d <;> decide

theorem isDigit_ne_dot (c : Char) (h : c.isDigit = true) : c ≠ '.' := by
  intro hc
  subst hc
  exact absurd h (by decide)

theorem natDigits_all_isDigit (n : Nat) : ∀ c ∈ natDigits n, c.isDigit = true := by
  induction n using Nat.strong_induction_on with
  | h n ih =>
    rw [natDigits_eq]
    by_cases h10 : n < 10
    · rw [if_pos h10]
      intro c hc
      simp only [List.mem_singleton] at hc
      subst hc
      exact digitChar_isDigit n h10
    · rw [if_neg h10]
      intro c hc
      rcases List.mem_append.mp hc with hc' | hc'
      · exact ih (n / 10) (Nat.div_lt_self (by omega) (by omega)) c hc'
      · simp only [List.mem_singleton] at hc'
        subst hc'
        exact digitChar_isDigit (n % 10) (Nat.mod_lt n (by omega))

theorem natDigits_ne_nil (n : Nat) : natDigits n ≠ [] := by
  rw [natDigits_eq]
  by_cases h10 : n < 10 <;> simp [h10]

theorem pyInt_append (xs : PyStr) (c : Char) :
    pyInt (xs ++ [c]) = 10 * pyInt xs + (c.toNat - 48) := by
  simp [pyInt, List.foldl_append]

/-- Rendering a number and parsing it back is the identity. -/
theorem pyInt_natDigits (n : Nat) : pyInt (natDigits n) = n := by
  induction n using Nat.strong_induction_on with
  | h n ih =>
    rw [natDigits_eq]
    by_cases h10 : n < 10
    · rw [if_pos h10]
      simp [pyInt, digitChar_toNat n h10]
    · rw [if_neg h10, pyInt_append,
        ih (n / 10) (Nat.div_lt_self (by omega) (by omega)),
        digitChar_toNat (n % 10) (Nat.mod_lt n (by omega))]
      omega

theorem splitDot_ne_nil (s : PyStr) : splitDot s ≠ [] := by
  cases s with
  | nil => simp [splitDot]
  | cons c rest => by_cases hc : c = '.' <;> simp [splitDot, hc]

theorem splitDot_no_dot (s : PyStr) (h : ∀ c ∈ s, c ≠ '.') : splitDot s = [s] := by
  induction s with
  | nil => rfl
  | cons c rest ih =>
    have hc : c ≠ '.' := h c (by simp)
    simp only [splitDot, if_neg hc, ih (fun x hx => h x (by simp [hx]))]
    simp

theorem splitDot_append_dot (a rest : PyStr) (h : ∀ c ∈ a, c ≠ '.') :
    splitDot (a ++ '.' :: rest) = a :: splitDot rest := by
  induction a with
  | nil => simp [splitDot]
  | cons c a' ih =>
    have hc : c ≠ '.' := h c (by simp)
    simp only [List.cons_append, splitDot, if_neg hc]
    simp [ih (fun x hx => h x (by simp [hx]))]

theorem natDigits_no_dot (n : Nat) : ∀ c ∈ natDigits n, c ≠ '.' :=
  fun c hc => isDigit_ne_dot c (natDigits_all_isDigit n c hc)

theorem splitDot_formatTriple (M m p : Nat) :
    splitDot (formatTriple (M, m, p)) = [natDigits M, natDigits m, natDigits p] := by
  show splitDot (natDigits M ++ '.' :: (natDigits m ++ '.' :: natDigits p)) = _
  rw [splitDot_append_dot _ _ (natDigits_no_dot M),
    splitDot_append_dot _ _ (natDigits_no_dot m),
    splitDot_no_dot _ (natDigits_no_dot p)]

theorem suggest_versions_formatTriple (M m p : Nat) :
    suggest_versions (formatTriple (M, m, p)) =
      [formatTriple (M, m, p + 1), formatTriple (M, m + 1, 0),
       formatTriple (M + 1, 0, 0)] := by
  simp only [suggest_versions, splitDot_formatTriple, pyInt_natDigits]

/-- C3: if the greatest semantic version among the tags is `(M, m, p)`,
`_build_tag_options` returns exactly the patch bump, the minor bump
(patch reset), the major bump (minor and patch reset) and the
`"Custom tag"` sentinel, in that order; with no parsable tag it returns
exactly the seed options and the sentinel. -/
theorem build_tag_options_spec (tags : List PyStr) :
    build_tag_options tags =
      match maxSemverTriple tags with
      | some (M, m, p) =>
        [formatTriple (M, m, p + 1), formatTriple (M, m + 1, 0),
         formatTriple (M + 1, 0, 0), pstr "Custom tag"]
      | none => [pstr "0.0.1", pstr "0.1.0", pstr "1.0.0", pstr "Custom tag"] := by
  rw [build_tag_options, max_semver]
  cases h : maxSemverTriple tags with
  | none => simp
  | some v =>
    obtain ⟨M, m, p⟩ := v
    simp [suggest_versions_formatTriple]

theorem verGt_eq_true_iff (v w : Nat × Nat × Nat) :
    verGt v w = true ↔ (w.1 < v.1 ∨ (w.1 = v.1 ∧
      (w.2.1 < v.2.1 ∨ (w.2.1 = v.2.1 ∧ w.2.2 < v.2.2)))) := by
  simp [verGt]

theorem verGt_eq_false_iff (v w : Nat × Nat × Nat) :
    verGt v w = false ↔ ¬(w.1 < v.1 ∨ (w.1 = v.1 ∧
      (w.2.1 < v.2.1 ∨ (w.2.1 = v.2.1 ∧ w.2.2 < v.2.2)))) := by
  simp [verGt]

theorem verGt_irrefl (v : Nat × Nat × Nat) : verGt v v = false := by
  rw [verGt_eq_false_iff]
  omega

/-- If the new maximum `u` does not exceed `v` but exceeds the old
maximum `m`, then the old maximum does not exceed `v` either. -/
theorem verGt_trans_keep (u v m : Nat × Nat × Nat) (h1 : verGt u v = false)
    (h2 : verGt u m = true) : verGt m v = false := by
  rw [verGt_eq_false_iff] at h1 ⊢
  rw [verGt_eq_true_iff] at h2
  omega

/-- If `u` does not exceed the kept maximum `m` and `m` does not exceed
`v`, then `u` does not exceed `v`. -/
theorem verGt_trans_drop (u v m : Nat × Nat × Nat) (h1 : verGt u m = false)
    (h2 : verGt m v = false) : verGt u v = false := by
  rw [verGt_eq_false_iff] at h1 h2 ⊢
  omega

theorem maxSemverLoop_cons_none (tag : PyStr) (rest : List PyStr)
    (acc : Option (Nat × Nat × Nat)) (hp : parseTag tag = none) :
    maxSemverLoop (tag :: rest) acc = maxSemverLoop rest acc := by
  simp [maxSemverLoop, hp]

theorem maxSemverLoop_cons_some_none (tag : PyStr) (rest : List PyStr)
    (v : Nat × Nat × Nat) (hp : parseTag tag = some v) :
    maxSemverLoop (tag :: rest) none = maxSemverLoop rest (some v) := by
  simp [maxSemverLoop, hp]

theorem maxSemverLoop_cons_some_some (tag : PyStr) (rest : List PyStr)
    (v m : Nat × Nat × Nat) (hp : parseTag tag = some v) :
    maxSemverLoop (tag :: rest) (some m) =
      maxSemverLoop rest (if verGt v m then some v else some m) := by
  simp [maxSemverLoop, hp]

/-- The `_max_semver` loop yields no maximum exactly when it started
with none and no tag parses. -/
theorem maxSemverLoop_eq_none_iff : ∀ (tags : List PyStr) (acc),
    maxSemverLoop tags acc = none ↔
      (acc = none ∧ tags.filterMap parseTag = []) := by
  intro tags
  induction tags with
  | nil => intro acc; simp [maxSemverLoop]
  | cons tag rest ih =>
    intro acc
    cases hp : parseTag tag with
    | none =>
      rw [maxSemverLoop_cons_none _ _ _ hp, ih]
      simp [List.filterMap_cons, hp]
    | some v =>
      cases acc with
      | none =>
        rw [maxSemverLoop_cons_some_none _ _ _ hp, ih]
        simp [List.filterMap_cons, hp]
      | some m =>
        rw [maxSemverLoop_cons_some_some _ _ _ _ hp]
        by_cases hv : verGt v m = true <;>
          simp [hv, ih, List.filterMap_cons, hp]

/-- The `_max_semver` loop returns a parsed triple (or its starting
accumulator) that no parsed triple and no accumulator exceeds. -/
theorem maxSemverLoop_spec : ∀ (tags : List PyStr) (acc v),
    maxSemverLoop tags acc = some v →
      (v ∈ tags.filterMap parseTag ∨ acc = some v) ∧
      (∀ w ∈ tags.filterMap parseTag, verGt w v = false) ∧
      (∀ m, acc = some m → verGt m v = false) := by
  intro tags
  induction tags with
  | nil =>
    intro acc v h
    simp only [maxSemverLoop] at h
    refine ⟨Or.inr h, by simp, ?_⟩
    intro m hm
    rw [h] at hm
    obtain rfl : v = m := by injection hm
    exact verGt_irrefl v
  | cons tag rest ih =>
    intro acc v h
    cases hp : parseTag tag with
    | none =>
      rw [maxSemverLoop_cons_none _ _ _ hp] at h
      obtain ⟨h1, h2, h3⟩ := ih acc v h
      refine ⟨?_, ?_, h3⟩
      · rcases h1 with h1 | h1
        · exact Or.inl (by simp [List.filterMap_cons, hp, h1])
        · exact Or.inr h1
      · intro w hw
        simp only [List.filterMap_cons, hp] at hw
        exact h2 w hw
    | some u =>
      cases acc with
      | none =>
        rw [maxSemverLoop_cons_some_none _ _ _ hp] at h
        obtain ⟨h1, h2, h3⟩ := ih (some u) v h
        have hu : verGt u v = false := h3 u rfl
        refine ⟨Or.inl ?_, ?_, ?_⟩
        · rcases h1 with h1 | h1
          · simp only [List.filterMap_cons, hp, List.mem_cons]
            exact Or.inr h1
          · obtain rfl : u = v := by injection h1
            simp [List.filterMap_cons, hp]
        · intro w hw
          simp only [List.filterMap_cons, hp, List.mem_cons] at hw
          rcases hw with rfl | hw'
          · exact hu
          · exact h2 w hw'
        · intro m hm
          exact absurd hm (by simp)
      | some m0 =>
        rw [maxSemverLoop_cons_some_some _ _ _ _ hp] at h
        by_cases hv : verGt u m0 = true
        · rw [if_pos hv] at h
          obtain ⟨h1, h2, h3⟩ := ih (some u) v h
          have hu : verGt u v = false := h3 u rfl
          have hm0 : verGt m0 v = false := verGt_trans_keep u v m0 hu hv
          refine ⟨?_, ?_, ?_⟩
          · rcases h1 with h1 | h1
            · refine Or.inl ?_
              simp only [List.filterMap_cons, hp, List.mem_cons]
              exact Or.inr h1
            · obtain rfl : u = v := by injection h1
              exact Or.inl (by simp [List.filterMap_cons, hp])
          · intro w hw
            simp only [List.filterMap_cons, hp, List.mem_cons] at hw
            rcases hw with rfl | hw'
            · exact hu
            · exact h2 w hw'
          · intro m hm
            obtain rfl : m0 = m := by injection hm
            exact hm0
        · rw [if_neg hv] at h
          have hv' : verGt u m0 = false := by simpa using hv
          obtain ⟨h1, h2, h3⟩ := ih (some m0) v h
          have hm0 : verGt m0 v = false := h3 m0 rfl
          have hu : verGt u v = false := verGt_trans_drop u v m0 hv' hm0
          refine ⟨?_, ?_, ?_⟩
          · rcases h1 with h1 | h1
            · refine Or.inl ?_
              simp only [List.filterMap_cons, hp, List.mem_cons]
              exact Or.inr h1
            · exact Or.inr h1
          · intro w hw
            simp only [List.filterMap_cons, hp, List.mem_cons] at hw
            rcases hw with rfl | hw'
            · exact hu
            · exact h2 w hw'
          · intro m hm
            obtain rfl : m0 = m := by injection hm
            exact hm0

/-- C4: `_max_semver` parses each tag as exactly three dot-separated
non-negative integers, silently skips every tag not matching that
shape (including extra components, as in `"1.2.3.4"`, and non-digit
content, as in `"bogus"`), and returns the greatest parsed triple under
numeric component-wise comparison, or none if no tag parses; on
`["1.2.3", "1.2.10", "bogus", "1.2.3.4"]` it yields `(1, 2, 10)`. -/
theorem max_semver_numeric_max (tags : List PyStr) :
    (maxSemverTriple tags = none ↔ tags.filterMap parseTag = []) ∧
    (∀ v, maxSemverTriple tags = some v →
      v ∈ tags.filterMap parseTag ∧
        ∀ w ∈ tags.filterMap parseTag, verGt w v = false) ∧
    parseTag (pstr "bogus") = none ∧
    parseTag (pstr "1.2.3.4") = none ∧
    maxSemverTriple [pstr "1.2.3", pstr "1.2.10", pstr "bogus", pstr "1.2.3.4"] =
      some (1, 2, 10) := by
  refine ⟨?_, ?_, by decide, by decide, by decide⟩
  · rw [maxSemverTriple, maxSemverLoop_eq_none_iff]
    simp
  · intro v h
    obtain ⟨h1, h2, _⟩ := maxSemverLoop_spec tags none v h
    refine ⟨?_, h2⟩
    rcases h1 with h1 | h1
    · exact h1
    · exact absurd h1 (by simp)

/-- Witness for C4: the spec's example list, with its maximum a member
of the parsed triples that no parsed triple exceeds. -/
theorem max_semver_numeric_max_witness :
    (1, 2, 10) ∈
      [pstr "1.2.3", pstr "1.2.10", pstr "bogus", pstr "1.2.3.4"].filterMap parseTag ∧
    ∀ w ∈ [pstr "1.2.3", pstr "1.2.10", pstr "bogus",
      pstr "1.2.3.4"].filterMap parseTag, verGt w (1, 2, 10) = false :=
  (max_semver_numeric_max
    [pstr "1.2.3", pstr "1.2.10", pstr "bogus", pstr "1.2.3.4"]).2.1
    (1, 2, 10) (by decide)

end AcrPushTui
